import Mathlib

/-!
Verification development for the Market-Data Collection & Publishing server.

Shallow embedding of the resilient fetch orchestration layer:
`src/app/services/fetcher.py`, `src/app/adapters/ccxt_adapter.py`,
`src/app/services/cache.py`, with the data model of `src/app/models.py`.

Conventions of the embedding:
- Python floats are modelled as rationals (the code only passes them
  through, it never computes with them), Python ints as `Int`.
- A Python function that can raise returns `Except PyError A`; the
  distinct exception classes the code can raise or catch are the
  constructors of `PyError`.
- Upstream I/O (the ccxt exchange call, the CoinMarketCap HTTP call) is
  modelled by oracle values supplied as explicit arguments: one value
  describes what the upstream would do for the one call the code makes.
- Exception detail strings follow the source with the single quotes
  that surround interpolated values elided.
- The external libraries aiocache (cache decorator) and tenacity (retry
  decorator) are not part of the repository; their behaviour is modelled
  from the spec where a definition says so.
-/

/-- Python truthiness of an `Optional[str]` (None and the empty string are
falsy), as used by `if settings.COINMARKETCAP_KEY` in fetcher.py. -/
def pyTruthy : Option String → Bool
  | none => false
  | some s => !(s = "")

/-- app/core/config.py `Settings`: the two environment-driven fields. -/
structure Settings where
  COINMARKETCAP_KEY : Option String
  REDIS_URL : Option String

/-- Python `str.split(sep)` for a one-character separator, on the character
list of the string: always returns at least one (possibly empty) piece. -/
def splitChar (c : Char) : List Char → List (List Char)
  | [] => [[]]
  | x :: xs =>
    match splitChar c xs with
    | [] => [[]]
    | y :: ys => if x = c then [] :: y :: ys else (x :: y) :: ys

/-- Python `symbol.split(sep)` for a one-character separator. -/
def pySplit (c : Char) (s : String) : List String :=
  (splitChar c s.data).map String.mk

/-- Base-10 digits accumulated left to right; `none` on a non-digit. -/
def decDigitsAux (acc : Nat) : List Char → Option Nat
  | [] => some acc
  | c :: cs => if c.isDigit then decDigitsAux (10 * acc + (c.toNat - 48)) cs else none

/-- A non-empty all-digit character list as a number. -/
def decDigits : List Char → Option Nat
  | [] => none
  | cs => decDigitsAux 0 cs

/-- Python `int(s)` on a string: `some` when the literal parses as an
optionally signed decimal integer, `none` for the `ValueError` raise. -/
def pyInt (s : String) : Option Int :=
  match s.data with
  | '-' :: cs => (decDigits cs).map fun n => -(n : Int)
  | '+' :: cs => (decDigits cs).map fun n => (n : Int)
  | cs => (decDigits cs).map fun n => (n : Int)

/-- app/models.py `Ticker`. -/
structure Ticker where
  symbol : String
  last : ℚ
  bid : ℚ
  ask : ℚ
  high : ℚ
  low : ℚ
  volume : ℚ
  timestamp : Int
deriving DecidableEq, Repr

/-- app/models.py `Ohlcv`. -/
structure Ohlcv where
  timestamp : Int
  «open» : ℚ
  high : ℚ
  low : ℚ
  close : ℚ
  volume : ℚ
deriving DecidableEq, Repr

/-- app/models.py `OrderBook`. -/
structure OrderBook where
  bids : List (ℚ × ℚ)
  asks : List (ℚ × ℚ)
  timestamp : Int
  symbol : String
deriving DecidableEq, Repr

/-- fastapi `HTTPException`, as raised by the adapter and the fetcher. -/
structure HTTPException where
  status_code : Nat
  detail : String
deriving DecidableEq, Repr

/-- The Python exceptions that cross the functions of this embedding:
`HTTPException` is what the fetcher catches; a `ValueError` (from `int()`)
and an httpx network error (`httpx.RequestError`) are not caught by any
handler of fetcher.py and propagate raw. -/
inductive PyError where
  | httpExc (e : HTTPException)
  | valueError (msg : String)
  | netError (msg : String)
deriving DecidableEq, Repr

deriving instance DecidableEq for Except

/-- What `self.exchange.fetch_ticker(symbol)` would do for the one call the
adapter makes: the raw ccxt ticker dict on success, or one of the exception
classes `ccxt_adapter.py` distinguishes. -/
inductive CcxtTickerOutcome where
  | ok (symbol : String) (timestamp : Int) (last bid ask high low vwap : ℚ)
  | badSymbol
  | networkError
  | otherError (msg : String)

/-- ccxt_adapter.py `CCXTAdapter.get_ticker` (lines 33-69): builds a `Ticker`
from the raw dict (vwap is used as volume), classifying `ccxt.BadSymbol` as
404, `ccxt.NetworkError` as 503 and any other exception as 500. -/
def ccxt_get_ticker (exchange_id symbol : String) (o : CcxtTickerOutcome) :
    Except HTTPException Ticker :=
  match o with
  | .ok sym ts last bid ask high low vwap =>
    .ok { symbol := sym, timestamp := ts, last := last, bid := bid,
          ask := ask, high := high, low := low, volume := vwap }
  | .badSymbol =>
    .error ⟨404, "Symbol " ++ symbol ++ " not found on " ++ exchange_id⟩
  | .networkError =>
    .error ⟨503, "Network error connecting to " ++ exchange_id⟩
  | .otherError msg =>
    .error ⟨500, "An unexpected error occurred: " ++ msg⟩

/-- What `self.exchange.fetch_ohlcv(...)` would do: rows
`[timestamp, open, high, low, close, volume]` on success, or an exception
(the adapter catches every exception class uniformly). -/
inductive CcxtOhlcvOutcome where
  | ok (rows : List (Int × ℚ × ℚ × ℚ × ℚ × ℚ))
  | badSymbol
  | networkError
  | otherError (msg : String)

/-- The detail string ccxt_adapter.py builds for an OHLCV fetch failure. -/
def ohlcvFailDetail : CcxtOhlcvOutcome → String
  | .badSymbol => "Failed to fetch historical data: bad symbol"
  | .networkError => "Failed to fetch historical data: network error"
  | .otherError msg => "Failed to fetch historical data: " ++ msg
  | .ok _ => ""

/-- ccxt_adapter.py `CCXTAdapter.get_historical_data` (lines 71-109): raises
501 before the upstream call when the exchange does not advertise
`fetchOHLCV`; otherwise maps the rows, classifying every exception from the
call as 500. The boolean of the pair records whether the upstream call was
attempted. -/
def ccxt_get_historical_data (exchange_id _symbol : String)
    (hasFetchOHLCV : Bool) (o : CcxtOhlcvOutcome) :
    Except HTTPException (List Ohlcv) × Bool :=
  if !hasFetchOHLCV then
    (.error ⟨501, "Exchange " ++ exchange_id ++
      " does not support fetching OHLCV data."⟩, false)
  else
    match o with
    | .ok rows =>
      (.ok (rows.map fun r =>
        { timestamp := r.1, «open» := r.2.1, high := r.2.2.1, low := r.2.2.2.1,
          close := r.2.2.2.2.1, volume := r.2.2.2.2.2 }), true)
    | o => (.error ⟨500, ohlcvFailDetail o⟩, true)

/-- What `self.exchange.fetch_order_book(symbol, limit)` would do. -/
inductive CcxtOrderBookOutcome where
  | ok (symbol : String) (bids asks : List (ℚ × ℚ)) (timestamp : Int)
  | fail (msg : String)

/-- ccxt_adapter.py `CCXTAdapter.get_order_book` (lines 111-133): every
exception from the call is classified as 500. -/
def ccxt_get_order_book (_exchange_id _symbol : String)
    (o : CcxtOrderBookOutcome) : Except HTTPException OrderBook :=
  match o with
  | .ok sym bids asks ts =>
    .ok { bids := bids, asks := asks, timestamp := ts, symbol := sym }
  | .fail msg =>
    .error ⟨500, "Failed to fetch order book: " ++ msg⟩

/-- One quote object of the CoinMarketCap response body: `price` and
`volume_24h` are read with `[]` (KeyError when absent, hence `Option`),
the other four with `.get(k, 0)`. -/
structure CmcQuote where
  price : Option ℚ
  volume_24h : Option ℚ
  bid : Option ℚ
  ask : Option ℚ
  high_24h : Option ℚ
  low_24h : Option ℚ
deriving DecidableEq, Repr

/-- One entry of the response `data` map: its `quote` key maps quote-currency
codes to quote objects (`none` models the `quote` key being absent). -/
structure CmcEntry where
  quote : Option (List (String × CmcQuote))
deriving DecidableEq, Repr

/-- The CoinMarketCap JSON body as the fetcher reads it: `data` maps
base-currency codes to entries (`none` models the `data` key being absent). -/
structure CmcBody where
  data : Option (List (String × CmcEntry))
deriving DecidableEq, Repr

/-- An HTTP response from the CoinMarketCap endpoint: status code, the
optional `Date` header, the response text and the parsed JSON body. -/
structure CmcResponse where
  status : Nat
  dateHeader : Option String
  text : String
  body : CmcBody
deriving DecidableEq, Repr

/-- What the one `client.get` call to CoinMarketCap would do: a response, or
an httpx network failure (which no handler of fetcher.py catches). -/
inductive CmcHttpResult where
  | netFail (msg : String)
  | resp (r : CmcResponse)
deriving DecidableEq, Repr

/-- fetcher.py line 95 and 105, `symbol.split("/")[0]`: the base currency
(the `[0]` access never raises, split returns at least one piece). -/
def cmcBase (symbol : String) : String :=
  (pySplit '/' symbol).headD symbol

/-- fetcher.py line 105, `symbol.split("/")[1]`: the quote currency;
`none` models the IndexError when the symbol has no separator. -/
def cmcQuoteCcy (symbol : String) : Option String :=
  (pySplit '/' symbol).get? 1

/-- The chained lookup of fetcher.py line 105,
`data["data"][symbol.split("/")[0]]["quote"][symbol.split("/")[1]]`, in
evaluation order; `none` for the KeyError / IndexError raises, which line
123 catches uniformly. -/
def cmcLookupQuote (body : CmcBody) (symbol : String) : Option CmcQuote := do
  let dataMap ← body.data
  let entry ← dataMap.lookup (cmcBase symbol)
  let quoteMap ← entry.quote
  let quoteCcy ← cmcQuoteCcy symbol
  quoteMap.lookup quoteCcy

/-- fetcher.py `_fetch_from_coinmarketcap` body (lines 84-127), for one
attempt (the retry wrapper is modelled separately): 501 when no key is
configured; `raise_for_status` turns a status of 400 or more into the
HTTPStatusError handler's HTTPException; a KeyError or IndexError from the
chained lookup becomes a 404; `int()` on a non-numeric `Date` header raises
an uncaught ValueError; absent bid/ask/high_24h/low_24h default to 0. -/
def fetch_from_coinmarketcap_once (st : Settings) (symbol : String)
    (hr : CmcHttpResult) : Except PyError Ticker :=
  if !pyTruthy st.COINMARKETCAP_KEY then
    .error (.httpExc ⟨501, "CoinMarketCap API key not configured."⟩)
  else
    match hr with
    | .netFail msg => .error (.netError msg)
    | .resp r =>
      if r.status ≥ 400 then
        .error (.httpExc ⟨r.status, "Error from CoinMarketCap: " ++ r.text⟩)
      else
        match cmcLookupQuote r.body symbol with
        | none =>
          .error (.httpExc ⟨404,
            "Could not parse CoinMarketCap response for " ++ symbol ++ "."⟩)
        | some q =>
          match pyInt ((r.dateHeader).getD "0") with
          | none => .error (.valueError "invalid literal for int")
          | some ts =>
            match q.price with
            | none =>
              .error (.httpExc ⟨404,
                "Could not parse CoinMarketCap response for " ++ symbol ++ "."⟩)
            | some price =>
              match q.volume_24h with
              | none =>
                .error (.httpExc ⟨404,
                  "Could not parse CoinMarketCap response for " ++ symbol ++ "."⟩)
              | some vol =>
                .ok { symbol := symbol, timestamp := ts, last := price,
                      bid := q.bid.getD 0, ask := q.ask.getD 0,
                      high := q.high_24h.getD 0, low := q.low_24h.getD 0,
                      volume := vol }

/-- Modelled from the spec: the retry wrapper (the tenacity decorator of
fetcher.py line 83 is library code outside src/). Spec 4.3: retries
unconditionally on any exception up to the attempt ceiling; after
exhausting attempts, the last failure propagates to the caller. `op k` is
the outcome of attempt `k` (numbered from 0), `retriesLeft` how many more
attempts may follow the current one. Returns the propagated result and the
number of attempts made. -/
def retryFrom {E A : Type} (op : Nat → Except E A) (k : Nat) :
    (retriesLeft : Nat) → Except E A × Nat
  | 0 => (op k, 1)
  | n + 1 =>
    match op k with
    | .ok a => (.ok a, 1)
    | .error _ =>
      let r := retryFrom op (k + 1) n
      (r.1, r.2 + 1)

/-- fetcher.py `_fetch_from_coinmarketcap` (lines 83-127): the body wrapped
in the retry policy with `stop_after_attempt(3)`; `attempts k` is what the
CoinMarketCap HTTP call would do on attempt `k`. Returns the result and the
number of attempts made. -/
def fetch_from_coinmarketcap (st : Settings) (symbol : String)
    (attempts : Nat → CmcHttpResult) : Except PyError Ticker × Nat :=
  retryFrom (fun k => fetch_from_coinmarketcap_once st symbol (attempts k)) 0 2

/-- The upstream world one `DataFetcher.get_ticker` call runs against:
the exchange list of ccxt, what the primary exchange's `fetch_ticker` would
do, and what the CoinMarketCap HTTP call would do on each retry attempt. -/
structure TickerWorld where
  exchanges : List String
  ccxt : CcxtTickerOutcome
  cmcAttempts : Nat → CmcHttpResult

/-- Instrumented outcome of the undecorated `get_ticker` body: the returned
or raised value, and how often `adapter.close()`, the primary
`adapter.get_ticker` and `_fetch_from_coinmarketcap` ran. -/
structure TickerTrace where
  result : Except PyError Ticker
  closes : Nat
  primaryCalls : Nat
  fallbackCalls : Nat
deriving Repr

/-- fetcher.py `DataFetcher.get_ticker` body (lines 30-39), without the
cache decorator: constructs the adapter (404 before the `try` when the
exchange id is unknown to ccxt), calls the primary, falls back to
CoinMarketCap only on an HTTPException with status 404 when a key is
configured, re-raises every other error, and closes the adapter in the
`finally` on every path through the `try`. -/
def get_ticker_body (st : Settings) (w : TickerWorld)
    (exchange symbol : String) : TickerTrace :=
  if exchange ∈ w.exchanges then
    match ccxt_get_ticker exchange symbol w.ccxt with
    | .ok t => { result := .ok t, closes := 1, primaryCalls := 1, fallbackCalls := 0 }
    | .error e =>
      if e.status_code = 404 ∧ pyTruthy st.COINMARKETCAP_KEY then
        { result := (fetch_from_coinmarketcap st symbol w.cmcAttempts).1,
          closes := 1, primaryCalls := 1, fallbackCalls := 1 }
      else
        { result := .error (.httpExc e), closes := 1, primaryCalls := 1,
          fallbackCalls := 0 }
  else
    { result := .error (.httpExc ⟨404, "Exchange " ++ exchange ++ " not found."⟩),
      closes := 0, primaryCalls := 0, fallbackCalls := 0 }

/-- A JSON value, as the cache serializer stores it. -/
inductive Json where
  | null
  | str (s : String)
  | num (q : ℚ)
  | arr (xs : List Json)
  | obj (fields : List (String × Json))

/-- The JSON serialization of a `Ticker` (aiocache `JsonSerializer.dumps`
applied to the model of app/models.py). -/
def encodeTicker (t : Ticker) : Json :=
  .obj [("symbol", .str t.symbol), ("last", .num t.last), ("bid", .num t.bid),
        ("ask", .num t.ask), ("high", .num t.high), ("low", .num t.low),
        ("volume", .num t.volume), ("timestamp", .num (t.timestamp : ℚ))]

/-- Reading a stored JSON value back as a `Ticker` (aiocache
`JsonSerializer.loads` plus the model validation of app/models.py). -/
def decodeTicker (j : Json) : Option Ticker :=
  match j with
  | .obj [("symbol", .str sym), ("last", .num last), ("bid", .num bid),
          ("ask", .num ask), ("high", .num high), ("low", .num low),
          ("volume", .num vol), ("timestamp", .num ts)] =>
    if ts.den = 1 then
      some { symbol := sym, last := last, bid := bid, ask := ask,
             high := high, low := low, volume := vol, timestamp := ts.num }
    else none
  | _ => none

/-- The cache backend state: serialized entries keyed by fingerprint, each
with its expiry instant (seconds). A store prepends, so `List.lookup` sees
the newest entry for a key. -/
def CacheState : Type := List (String × Json × Int)

/-- fetcher.py line 22: the `key_builder` of the cache decorator,
`f"ticker:{kwargs['exchange']}:{kwargs['symbol']}"`. -/
def key_builder (exchange symbol : String) : String :=
  "ticker:" ++ exchange ++ ":" ++ symbol

/-- Instrumented outcome of the decorated (cached) `get_ticker`: the body
trace fields, plus the cache state after the call and whether the wrapped
body (the compute function) ran. -/
structure CachedTickerOut where
  result : Except PyError Ticker
  cache : CacheState
  closes : Nat
  primaryCalls : Nat
  fallbackCalls : Nat
  computed : Bool

/-- Running the body on a cache miss and storing a successful result with
expiry `now + ttl` (ttl = 10, fetcher.py line 22). -/
def runTickerBody (st : Settings) (w : TickerWorld) (c : CacheState)
    (now : Int) (exchange symbol : String) : CachedTickerOut :=
  let tr := get_ticker_body st w exchange symbol
  match tr.result with
  | .ok t =>
    { result := .ok t,
      cache := (key_builder exchange symbol, encodeTicker t, now + 10) :: c,
      closes := tr.closes, primaryCalls := tr.primaryCalls,
      fallbackCalls := tr.fallbackCalls, computed := true }
  | .error e =>
    { result := .error e, cache := c, closes := tr.closes,
      primaryCalls := tr.primaryCalls, fallbackCalls := tr.fallbackCalls,
      computed := true }

/-- Modelled from the spec: the cache decorator around `get_ticker`
(aiocache library code outside src/). Spec 4.2: on cache hit within TTL,
returns the stored value without invoking the compute function; on miss or
expiry, invokes it, stores the result keyed by the fingerprint with
expiry = now + ttl, and returns it. An entry that does not decode as a
Ticker is treated as a miss. -/
def get_ticker (st : Settings) (w : TickerWorld) (c : CacheState)
    (now : Int) (exchange symbol : String) : CachedTickerOut :=
  match List.lookup (key_builder exchange symbol) c with
  | some (j, expiry) =>
    if now < expiry then
      match decodeTicker j with
      | some t =>
        { result := .ok t, cache := c, closes := 0, primaryCalls := 0,
          fallbackCalls := 0, computed := false }
      | none => runTickerBody st w c now exchange symbol
    else runTickerBody st w c now exchange symbol
  | none => runTickerBody st w c now exchange symbol

/-- The per-item success projection of the batch filter,
`isinstance(res, Ticker)` of fetcher.py line 53. -/
def tickerOf : Except PyError Ticker → Option Ticker
  | .ok t => some t
  | .error _ => none

/-- Whether a gathered per-item result was an exception. -/
def isFailure : Except PyError Ticker → Bool
  | .ok _ => false
  | .error _ => true

/-- fetcher.py `DataFetcher.get_batch_tickers` (lines 41-54): one
`get_ticker` task per request, gathered with `return_exceptions=True`
(`outcome req` is the result of the task for `req`), keeping only the
results that are `Ticker` instances. The function is total: no exception
escapes the batch. -/
def get_batch_tickers (requests : List (String × String))
    (outcome : String × String → Except PyError Ticker) : List Ticker :=
  (requests.map outcome).filterMap tickerOf

/-- fetcher.py `DataFetcher.get_historical_data` (lines 57-66): constructs
the adapter (404 when the exchange id is unknown, before the `try`), calls
it, and closes it in the `finally`. Returns the result, the close count and
whether the upstream OHLCV call was attempted. -/
def get_historical_data (w : TickerWorld) (hasFetchOHLCV : Bool)
    (o : CcxtOhlcvOutcome) (exchange symbol : String) :
    Except PyError (List Ohlcv) × Nat × Bool :=
  if exchange ∈ w.exchanges then
    match ccxt_get_historical_data exchange symbol hasFetchOHLCV o with
    | (.ok rows, attempted) => (.ok rows, 1, attempted)
    | (.error e, attempted) => (.error (.httpExc e), 1, attempted)
  else
    (.error (.httpExc ⟨404, "Exchange " ++ exchange ++ " not found."⟩), 0, false)

/-- fetcher.py `DataFetcher.get_order_book` (lines 68-75): constructs the
adapter, calls it, closes it in the `finally`. Returns the result and the
close count. -/
def get_order_book (w : TickerWorld) (o : CcxtOrderBookOutcome)
    (exchange symbol : String) : Except PyError OrderBook × Nat :=
  if exchange ∈ w.exchanges then
    match ccxt_get_order_book exchange symbol o with
    | .ok ob => (.ok ob, 1)
    | .error e => (.error (.httpExc e), 1)
  else
    (.error (.httpExc ⟨404, "Exchange " ++ exchange ++ " not found."⟩), 0)

/-- Settings of the spec example: a CoinMarketCap key is configured. -/
def exampleKeySettings : Settings := ⟨some "test_key", none⟩

/-- The secondary data of the spec example: base "XRP", quote "USD",
price 0.52 (volume_24h present as the consumed response shape requires,
Date header absent). -/
def xrpUsdResponse : CmcResponse :=
  ⟨200, none, "",
    ⟨some [("XRP", ⟨some [("USD",
      ⟨some (0.52 : ℚ), some 1000, none, none, none, none⟩)]⟩)]⟩⟩

/-- The world of the spec example: provider "demo-exchange" lacks the
symbol (fetch_ticker raises BadSymbol), and the CoinMarketCap call answers
with `xrpUsdResponse`. -/
def demoNotFoundWorld : TickerWorld :=
  ⟨["demo-exchange"], .badSymbol, fun _ => .resp xrpUsdResponse⟩

/-- The upstream world of the dedup and round-trip witnesses: "binance"
knows the symbol and answers with a fixed raw ticker. -/
def btcWorld : TickerWorld :=
  ⟨["binance"], .ok "BTC/USDT" 111 50000 49999 50001 51000 49000 50500,
    fun _ => .netFail "x"⟩

/-- The Ticker the adapter builds from `btcWorld` (vwap becomes volume). -/
def btcTicker : Ticker :=
  ⟨"BTC/USDT", 50000, 49999, 50001, 51000, 49000, 50500, 111⟩

lemma length_filterMap_tickerOf (rs : List (Except PyError Ticker)) :
    (rs.filterMap tickerOf).length + rs.countP isFailure = rs.length := by
  induction rs with
  | nil => rfl
  | cons r rs ih =>
    cases r <;> simp [tickerOf, isFailure, List.countP_cons] <;> omega

lemma colon_sep_inj : ∀ (a₁ : List Char) {a₂ b₁ b₂ : List Char},
    ':' ∉ a₁ → ':' ∉ a₂ → a₁ ++ ':' :: b₁ = a₂ ++ ':' :: b₂ →
    a₁ = a₂ ∧ b₁ = b₂ := by
  intro a₁
  induction a₁ with
  | nil =>
    intro a₂ b₁ b₂ _ h₂ h
    cases a₂ with
    | nil => simpa using h
    | cons y ys =>
      simp only [List.nil_append, List.cons_append, List.cons.injEq] at h
      exact absurd (h.1 ▸ List.mem_cons_self y ys) (h.1 ▸ h₂)
  | cons x xs ih =>
    intro a₂ b₁ b₂ h₁ h₂ h
    cases a₂ with
    | nil =>
      simp only [List.cons_append, List.nil_append, List.cons.injEq] at h
      exact absurd (h.1 ▸ List.mem_cons_self x xs) fun hx => h₁ (h.1 ▸ hx)
    | cons y ys =>
      simp only [List.cons_append, List.cons.injEq] at h
      have hx : ':' ∉ xs := fun hm => h₁ (List.mem_cons_of_mem x hm)
      have hy : ':' ∉ ys := fun hm => h₂ (List.mem_cons_of_mem y hm)
      obtain ⟨he, hb⟩ := ih hx hy h.2
      exact ⟨by rw [h.1, he], hb⟩

/-- C8, amended: the cache fingerprint is exactly
`"ticker:" ++ exchange ++ ":" ++ symbol` with both parts taken verbatim
(case preserved), and — provided the provider identifiers contain no
colon — two requests produce the same fingerprint if and only if they
agree on provider and symbol. (Without that proviso the plain colon-joined
format is not injective; see the counterexample.) -/
theorem c8_fingerprint :
    (∀ exchange symbol : String,
        key_builder exchange symbol = "ticker:" ++ exchange ++ ":" ++ symbol) ∧
    ∀ ex₁ sym₁ ex₂ sym₂ : String, ':' ∉ ex₁.data → ':' ∉ ex₂.data →
      (key_builder ex₁ sym₁ = key_builder ex₂ sym₂ ↔ ex₁ = ex₂ ∧ sym₁ = sym₂) := by
  refine ⟨fun _ _ => rfl, fun ex₁ sym₁ ex₂ sym₂ h₁ h₂ => ⟨fun h => ?_, ?_⟩⟩
  · have hd : ("ticker:".data ++ ex₁.data) ++ (':' :: sym₁.data) =
        ("ticker:".data ++ ex₂.data) ++ (':' :: sym₂.data) := by
      have := congrArg String.data h
      simpa [key_builder, String.data_append] using this
    rw [List.append_assoc, List.append_assoc] at hd
    have hd' := List.append_cancel_left hd
    obtain ⟨he, hs⟩ := colon_sep_inj ex₁.data h₁ h₂ hd'
    exact ⟨String.ext he, String.ext hs⟩
  · rintro ⟨rfl, rfl⟩
    rfl

/-- C8 witness: a concrete colon-free provider pair where the equivalence
is checked. -/
theorem c8_fingerprint_witness :
    (':' ∉ "binance".data) ∧ (':' ∉ "coinbase".data) ∧
    (key_builder "binance" "BTC/USDT" = key_builder "coinbase" "BTC/USDT" ↔
      "binance" = "coinbase" ∧ "BTC/USDT" = "BTC/USDT") :=
  ⟨by decide, by decide,
    c8_fingerprint.2 "binance" "BTC/USDT" "coinbase" "BTC/USDT"
      (by decide) (by decide)⟩

/-- C8 counterexample: with a colon inside the provider identifier, two
requests that disagree on (provider, symbol) share one fingerprint, so the
if-and-only-if of the claim fails as stated. -/
theorem c8_collision_counterexample :
    key_builder "a:b" "c" = key_builder "a" "b:c" ∧
      ¬("a:b" = "a" ∧ "c" = "b:c") := by
  exact ⟨by decide, by decide⟩

/-- C4: a batch of N requests in which exactly one gathered item fails
returns exactly N - 1 Tickers (and, the function being total, raises no
error); in general the result size never exceeds the request size. -/
theorem c4_batch_isolation :
    ∀ (requests : List (String × String))
      (outcome : String × String → Except PyError Ticker),
      ((requests.map outcome).countP isFailure = 1 →
        (get_batch_tickers requests outcome).length + 1 = requests.length) ∧
      (get_batch_tickers requests outcome).length ≤ requests.length := by
  intro requests outcome
  have hlen := length_filterMap_tickerOf (requests.map outcome)
  have hmap : (requests.map outcome).length = requests.length :=
    List.length_map requests outcome
  unfold get_batch_tickers
  omega

/-- C4 witness: a three-item batch whose middle item fails returns the two
successful Tickers. -/
theorem c4_batch_isolation_witness :
    (([("binance", "BTC/USDT"), ("binance", "nope"), ("kraken", "ETH/USD")] :
        List (String × String)).map fun req =>
          if req.2 = "nope" then
            (.error (.httpExc ⟨404, "Symbol nope not found on binance"⟩) :
              Except PyError Ticker)
          else
            .ok { symbol := req.2, last := 1, bid := 1, ask := 1, high := 1,
                  low := 1, volume := 1, timestamp := 0 }).countP isFailure = 1 ∧
      (get_batch_tickers
          [("binance", "BTC/USDT"), ("binance", "nope"), ("kraken", "ETH/USD")]
          (fun req =>
            if req.2 = "nope" then
              .error (.httpExc ⟨404, "Symbol nope not found on binance"⟩)
            else
              .ok { symbol := req.2, last := 1, bid := 1, ask := 1, high := 1,
                    low := 1, volume := 1, timestamp := 0 })).length + 1 = 3 :=
  ⟨by decide,
    (c4_batch_isolation
      [("binance", "BTC/USDT"), ("binance", "nope"), ("kraken", "ETH/USD")]
      (fun req =>
        if req.2 = "nope" then
          .error (.httpExc ⟨404, "Symbol nope not found on binance"⟩)
        else
          .ok { symbol := req.2, last := 1, bid := 1, ask := 1, high := 1,
                low := 1, volume := 1, timestamp := 0 })).1 (by decide)⟩

/-- C3: the retry wrapper around the secondary-provider call retries on any
exception (the attempts may fail with arbitrary, distinct error kinds); a
call that fails on every attempt is attempted exactly 3 times total, and
the failure of the last attempt is what propagates to the caller. -/
theorem c3_retry_bound :
    ∀ (st : Settings) (symbol : String) (attempts : Nat → CmcHttpResult),
      (∀ k, ∃ e, fetch_from_coinmarketcap_once st symbol (attempts k) = .error e) →
      fetch_from_coinmarketcap st symbol attempts =
        (fetch_from_coinmarketcap_once st symbol (attempts 2), 3) := by
  intro st symbol attempts h
  obtain ⟨e0, h0⟩ := h 0
  obtain ⟨e1, h1⟩ := h 1
  simp [fetch_from_coinmarketcap, retryFrom, h0, h1]

/-- C3 witness: a secondary call that hits a network failure on every
attempt is attempted 3 times and the last network failure propagates. -/
theorem c3_retry_bound_witness :
    fetch_from_coinmarketcap ⟨some "key", none⟩ "BTC/USDT"
        (fun _ => .netFail "connection reset") =
      (fetch_from_coinmarketcap_once ⟨some "key", none⟩ "BTC/USDT"
        (.netFail "connection reset"), 3) :=
  c3_retry_bound ⟨some "key", none⟩ "BTC/USDT" (fun _ => .netFail "connection reset")
    (fun _ => ⟨.netError "connection reset", rfl⟩)

/-- C2: when the primary provider call fails, fallback is gated exactly on
(status 404, CoinMarketCap key configured): with a key, the one fallback
call is made and its result returned; without a key a 404 propagates
unchanged with no fallback; every non-404 error propagates unchanged with
no fallback. -/
theorem c2_fallback_gating :
    ∀ (st : Settings) (w : TickerWorld) (exchange symbol : String)
      (e : HTTPException),
      exchange ∈ w.exchanges →
      ccxt_get_ticker exchange symbol w.ccxt = .error e →
      ((e.status_code = 404 ∧ pyTruthy st.COINMARKETCAP_KEY = true →
          (get_ticker_body st w exchange symbol).fallbackCalls = 1 ∧
          (get_ticker_body st w exchange symbol).result =
            (fetch_from_coinmarketcap st symbol w.cmcAttempts).1) ∧
        (e.status_code = 404 ∧ pyTruthy st.COINMARKETCAP_KEY = false →
          (get_ticker_body st w exchange symbol).result = .error (.httpExc e) ∧
          (get_ticker_body st w exchange symbol).fallbackCalls = 0) ∧
        (e.status_code ≠ 404 →
          (get_ticker_body st w exchange symbol).result = .error (.httpExc e) ∧
          (get_ticker_body st w exchange symbol).fallbackCalls = 0)) := by
  intro st w exchange symbol e hex herr
  refine ⟨fun h => ?_, fun h => ?_, fun h404 => ?_⟩
  · obtain ⟨h404, hkey⟩ := h
    simp [get_ticker_body, hex, herr, h404, hkey]
  · obtain ⟨h404, hkey⟩ := h
    simp [get_ticker_body, hex, herr, h404, hkey]
  · simp [get_ticker_body, hex, herr, h404]

/-- C2 witness: primary 404 with a key configured makes exactly one
fallback call and returns its result. -/
theorem c2_fallback_gating_witness :
    (get_ticker_body ⟨some "key", none⟩
        ⟨["binance"], .badSymbol, fun _ => .netFail "down"⟩
        "binance" "FOO/BAR").fallbackCalls = 1 ∧
    (get_ticker_body ⟨some "key", none⟩
        ⟨["binance"], .badSymbol, fun _ => .netFail "down"⟩
        "binance" "FOO/BAR").result =
      (fetch_from_coinmarketcap ⟨some "key", none⟩ "FOO/BAR"
        (fun _ => .netFail "down")).1 :=
  (c2_fallback_gating ⟨some "key", none⟩
      ⟨["binance"], .badSymbol, fun _ => .netFail "down"⟩
      "binance" "FOO/BAR" ⟨404, "Symbol FOO/BAR not found on binance"⟩
      (by decide) (by decide)).1 ⟨rfl, by decide⟩

/-- C7: whenever the adapter is constructed (the exchange id is known),
each of the three fetch operations calls `close()` exactly once, whatever
the upstream call does — success, any raised error, or the ticker fallback
path. -/
theorem c7_adapter_released_once :
    ∀ (st : Settings) (w : TickerWorld) (hasFetchOHLCV : Bool)
      (oh : CcxtOhlcvOutcome) (ob : CcxtOrderBookOutcome)
      (exchange symbol : String),
      exchange ∈ w.exchanges →
      (get_ticker_body st w exchange symbol).closes = 1 ∧
      (get_historical_data w hasFetchOHLCV oh exchange symbol).2.1 = 1 ∧
      (get_order_book w ob exchange symbol).2 = 1 := by
  intro st w hasFetchOHLCV oh ob exchange symbol hex
  refine ⟨?_, ?_, ?_⟩
  · unfold get_ticker_body
    rw [if_pos hex]
    split
    · rfl
    · split <;> rfl
  · unfold get_historical_data
    rw [if_pos hex]
    split <;> rfl
  · unfold get_order_book
    rw [if_pos hex]
    split <;> rfl

/-- C7 witness: the close counts at a concrete world, one per operation. -/
theorem c7_adapter_released_once_witness :
    (get_ticker_body ⟨none, none⟩
        ⟨["kraken"], .networkError, fun _ => .netFail "x"⟩
        "kraken" "BTC/USD").closes = 1 ∧
    (get_historical_data ⟨["kraken"], .networkError, fun _ => .netFail "x"⟩
        true .networkError "kraken" "BTC/USD").2.1 = 1 ∧
    (get_order_book ⟨["kraken"], .networkError, fun _ => .netFail "x"⟩
        (.fail "boom") "kraken" "BTC/USD").2 = 1 :=
  c7_adapter_released_once ⟨none, none⟩
    ⟨["kraken"], .networkError, fun _ => .netFail "x"⟩
    true .networkError (.fail "boom") "kraken" "BTC/USD" (by decide)

/-- C6 counterexample: for the same unknown-symbol upstream failure, the
ticker operation classifies it 404 but the historical operation classifies
it 500 — not "the same way as the ticker operation" as the claim states. -/
theorem c6_historical_counterexample :
    ccxt_get_ticker "binance" "FOO/BAR" .badSymbol =
      .error ⟨404, "Symbol FOO/BAR not found on binance"⟩ ∧
    (ccxt_get_historical_data "binance" "FOO/BAR" true .badSymbol).1 =
      .error ⟨500, "Failed to fetch historical data: bad symbol"⟩ := by
  exact ⟨by decide, by decide⟩

/-- C6, amended: the historical operation fails with 501 before attempting
the upstream call when the capability is not advertised; when it is
supported, every failure of the upstream call is classified as internal
(500), regardless of its cause. -/
theorem c6_historical_classification :
    ∀ (exchange symbol : String) (o : CcxtOhlcvOutcome),
      ccxt_get_historical_data exchange symbol false o =
        (.error ⟨501, "Exchange " ++ exchange ++
          " does not support fetching OHLCV data."⟩, false) ∧
      ((∀ rows, o ≠ .ok rows) →
        ccxt_get_historical_data exchange symbol true o =
          (.error ⟨500, ohlcvFailDetail o⟩, true)) := by
  intro exchange symbol o
  refine ⟨rfl, fun h => ?_⟩
  cases o with
  | ok rows => exact absurd rfl (h rows)
  | badSymbol => rfl
  | networkError => rfl
  | otherError msg => rfl

/-- C6 witness: a network failure of a supported historical call is
classified 500, and an unsupported exchange fails 501 without any call. -/
theorem c6_historical_classification_witness :
    ccxt_get_historical_data "binance" "BTC/USDT" false .networkError =
      (.error ⟨501, "Exchange binance does not support fetching OHLCV data."⟩,
        false) ∧
    ccxt_get_historical_data "binance" "BTC/USDT" true .networkError =
      (.error ⟨500, "Failed to fetch historical data: network error"⟩, true) := by
  refine ⟨?_, ?_⟩
  · have h := (c6_historical_classification "binance" "BTC/USDT" .networkError).1
    simpa using h
  · have h := (c6_historical_classification "binance" "BTC/USDT" .networkError).2
      (fun rows hr => by cases hr)
    simpa using h

lemma splitChar_not_mem {c : Char} : ∀ {l : List Char}, c ∉ l →
    splitChar c l = [l] := by
  intro l
  induction l with
  | nil => intro _; rfl
  | cons x xs ih =>
    intro h
    have hx : ¬(x = c) := fun he => h (he ▸ List.mem_cons_self x xs)
    have hxs : c ∉ xs := fun hm => h (List.mem_cons_of_mem x hm)
    unfold splitChar
    rw [ih hxs]
    simp [hx]

lemma pySplit_no_sep {c : Char} {s : String} (h : c ∉ s.data) :
    pySplit c s = [s] := by
  unfold pySplit
  rw [splitChar_not_mem h]
  rfl

lemma cmcQuoteCcy_no_sep {symbol : String} (h : '/' ∉ symbol.data) :
    cmcQuoteCcy symbol = none := by
  unfold cmcQuoteCcy
  rw [pySplit_no_sep h]
  rfl

lemma cmcLookupQuote_no_sep (b : CmcBody) {symbol : String}
    (h : '/' ∉ symbol.data) : cmcLookupQuote b symbol = none := by
  unfold cmcLookupQuote
  rw [cmcQuoteCcy_no_sep h]
  cases hd : b.data with
  | none => rfl
  | some m =>
    cases hl : m.lookup (cmcBase symbol) with
    | none => simp [hd, hl]
    | some entry =>
      cases hq : entry.quote with
      | none => simp [hd, hl, hq]
      | some qm => simp [hd, hl, hq]

lemma cmc_once_no_sep (st : Settings) {symbol : String} (hr : CmcHttpResult)
    (h : '/' ∉ symbol.data) :
    ∃ e, fetch_from_coinmarketcap_once st symbol hr = .error e := by
  cases hk : pyTruthy st.COINMARKETCAP_KEY with
  | false =>
    exact ⟨.httpExc ⟨501, "CoinMarketCap API key not configured."⟩,
      by simp [fetch_from_coinmarketcap_once, hk]⟩
  | true =>
    cases hr with
    | netFail m =>
      exact ⟨.netError m, by simp [fetch_from_coinmarketcap_once, hk]⟩
    | resp r =>
      by_cases hs : r.status ≥ 400
      · exact ⟨.httpExc ⟨r.status, "Error from CoinMarketCap: " ++ r.text⟩,
          by simp [fetch_from_coinmarketcap_once, hk, hs]⟩
      · exact ⟨.httpExc ⟨404,
            "Could not parse CoinMarketCap response for " ++ symbol ++ "."⟩,
          by simp [fetch_from_coinmarketcap_once, hk, hs,
            cmcLookupQuote_no_sep r.body h]⟩

lemma retryFrom_all_fail {E A : Type} (op : Nat → Except E A)
    (h : ∀ k, ∃ e, op k = .error e) :
    ∀ n k, ∃ e, (retryFrom op k n).1 = .error e := by
  intro n
  induction n with
  | zero =>
    intro k
    obtain ⟨e, he⟩ := h k
    exact ⟨e, by simp [retryFrom, he]⟩
  | succ n ih =>
    intro k
    obtain ⟨e, he⟩ := h k
    obtain ⟨e', he'⟩ := ih (k + 1)
    exact ⟨e', by simp [retryFrom, he, he']⟩

/-- C10: for a requested symbol with no "/" separator, the fallback can
never succeed: each attempt raises (for any response), as does the retried
call as a whole, and on an HTTP-success response the failure is exactly the
404 "Could not parse" classification produced when the index error from the
missing quote-currency component is caught. -/
theorem c10_no_separator_fallback :
    ∀ (st : Settings) (symbol : String) (hr : CmcHttpResult)
      (attempts : Nat → CmcHttpResult) (t : Ticker),
      '/' ∉ symbol.data →
      fetch_from_coinmarketcap_once st symbol hr ≠ .ok t ∧
      (fetch_from_coinmarketcap st symbol attempts).1 ≠ .ok t ∧
      (∀ r : CmcResponse, pyTruthy st.COINMARKETCAP_KEY = true →
        r.status < 400 →
        fetch_from_coinmarketcap_once st symbol (.resp r) =
          .error (.httpExc ⟨404,
            "Could not parse CoinMarketCap response for " ++ symbol ++ "."⟩)) := by
  intro st symbol hr attempts t h
  refine ⟨?_, ?_, ?_⟩
  · obtain ⟨e, he⟩ := cmc_once_no_sep st hr h
    simp [he]
  · obtain ⟨e, he⟩ := retryFrom_all_fail
      (fun k => fetch_from_coinmarketcap_once st symbol (attempts k))
      (fun k => cmc_once_no_sep st (attempts k) h) 2 0
    unfold fetch_from_coinmarketcap
    simp [he]
  · intro r hk hs
    have hs' : ¬(r.status ≥ 400) := by omega
    simp [fetch_from_coinmarketcap_once, hk, hs',
      cmcLookupQuote_no_sep r.body h]

/-- C10 witness: symbol "XRP" (no separator) against a well-formed 200
response fails with the 404 parse classification. -/
theorem c10_no_separator_fallback_witness :
    ('/' ∉ "XRP".data) ∧
    fetch_from_coinmarketcap_once ⟨some "key", none⟩ "XRP"
        (.resp ⟨200, none, "",
          ⟨some [("XRP", ⟨some [("USD",
            ⟨some 1, some 2, none, none, none, none⟩)]⟩)]⟩⟩) =
      .error (.httpExc ⟨404, "Could not parse CoinMarketCap response for XRP."⟩) :=
  ⟨by decide,
    by
      have h := (c10_no_separator_fallback ⟨some "key", none⟩ "XRP"
        (.resp ⟨200, none, "",
          ⟨some [("XRP", ⟨some [("USD",
            ⟨some 1, some 2, none, none, none, none⟩)]⟩)]⟩⟩)
        (fun _ => .netFail "x")
        { symbol := "", last := 0, bid := 0, ask := 0, high := 0, low := 0,
          volume := 0, timestamp := 0 }
        (by decide)).2.2
        ⟨200, none, "",
          ⟨some [("XRP", ⟨some [("USD",
            ⟨some 1, some 2, none, none, none, none⟩)]⟩)]⟩⟩
        (by decide) (by decide)
      simpa using h⟩


/-- C5: in the fallback re-shaping, quote fields absent from the secondary
schema (bid, ask, high_24h, low_24h) default to 0 rather than failing the
lookup; a missing base-currency or quote-currency key fails with the 404
not-found classification; and in the spec example (primary not-found, key
configured, secondary data XRP/USD at price 0.52) the fetch succeeds with
last = 0.52, bid = 0, ask = 0. -/
theorem c5_fallback_reshaping :
    (∀ (st : Settings) (symbol : String) (r : CmcResponse) (q : CmcQuote)
        (ts : Int) (p v : ℚ),
      pyTruthy st.COINMARKETCAP_KEY = true → r.status < 400 →
      cmcLookupQuote r.body symbol = some q →
      pyInt ((r.dateHeader).getD "0") = some ts →
      q.price = some p → q.volume_24h = some v →
      q.bid = none → q.ask = none → q.high_24h = none → q.low_24h = none →
      fetch_from_coinmarketcap_once st symbol (.resp r) =
        .ok { symbol := symbol, timestamp := ts, last := p, bid := 0, ask := 0,
              high := 0, low := 0, volume := v }) ∧
    (∀ (st : Settings) (symbol : String) (r : CmcResponse)
        (m : List (String × CmcEntry)),
      pyTruthy st.COINMARKETCAP_KEY = true → r.status < 400 →
      r.body.data = some m →
      m.lookup (cmcBase symbol) = none →
      fetch_from_coinmarketcap_once st symbol (.resp r) =
        .error (.httpExc ⟨404,
          "Could not parse CoinMarketCap response for " ++ symbol ++ "."⟩)) ∧
    (∀ (st : Settings) (symbol : String) (r : CmcResponse)
        (m : List (String × CmcEntry)) (entry : CmcEntry)
        (qm : List (String × CmcQuote)) (qc : String),
      pyTruthy st.COINMARKETCAP_KEY = true → r.status < 400 →
      r.body.data = some m →
      m.lookup (cmcBase symbol) = some entry →
      entry.quote = some qm →
      cmcQuoteCcy symbol = some qc →
      qm.lookup qc = none →
      fetch_from_coinmarketcap_once st symbol (.resp r) =
        .error (.httpExc ⟨404,
          "Could not parse CoinMarketCap response for " ++ symbol ++ "."⟩)) ∧
    (get_ticker_body exampleKeySettings demoNotFoundWorld
        "demo-exchange" "XRP/USD").result =
      .ok { symbol := "XRP/USD", timestamp := 0, last := (0.52 : ℚ), bid := 0,
            ask := 0, high := 0, low := 0, volume := 1000 } := by
  refine ⟨?_, ?_, ?_, by rfl⟩
  · intro st symbol r q ts p v hk hs hq hts hp hv hbid hask hhigh hlow
    have hs' : ¬(r.status ≥ 400) := by omega
    simp [fetch_from_coinmarketcap_once, hk, hs', hq, hts, hp, hv, hbid,
      hask, hhigh, hlow]
  · intro st symbol r m hk hs hd hm
    have hs' : ¬(r.status ≥ 400) := by omega
    have hq : cmcLookupQuote r.body symbol = none := by
      simp [cmcLookupQuote, hd, hm]
    simp [fetch_from_coinmarketcap_once, hk, hs', hq]
  · intro st symbol r m entry qm qc hk hs hd hm hquote hqc hnone
    have hs' : ¬(r.status ≥ 400) := by omega
    have hq : cmcLookupQuote r.body symbol = none := by
      simp [cmcLookupQuote, hd, hm, hquote, hqc, hnone]
    simp [fetch_from_coinmarketcap_once, hk, hs', hq]

/-- C5 witness: the defaulting conjunct applied at the example response,
where bid and ask are absent from the secondary schema. -/
theorem c5_fallback_reshaping_witness :
    fetch_from_coinmarketcap_once exampleKeySettings "XRP/USD"
        (.resp xrpUsdResponse) =
      .ok { symbol := "XRP/USD", timestamp := 0, last := (0.52 : ℚ), bid := 0,
            ask := 0, high := 0, low := 0, volume := 1000 } :=
  c5_fallback_reshaping.1 exampleKeySettings "XRP/USD" xrpUsdResponse
    ⟨some (0.52 : ℚ), some 1000, none, none, none, none⟩ 0 (0.52 : ℚ) 1000
    (by decide) (by decide) rfl rfl rfl rfl rfl rfl rfl rfl

lemma decodeTicker_encodeTicker (t : Ticker) :
    decodeTicker (encodeTicker t) = some t := by
  have hden : ((t.timestamp : ℚ)).den = 1 := Rat.den_intCast t.timestamp
  have hnum : ((t.timestamp : ℚ)).num = t.timestamp := Rat.num_intCast t.timestamp
  simp [decodeTicker, encodeTicker, hden, hnum]

lemma get_ticker_body_primary_le_one (st : Settings) (w : TickerWorld)
    (exchange symbol : String) :
    (get_ticker_body st w exchange symbol).primaryCalls ≤ 1 := by
  unfold get_ticker_body
  split
  · split
    · exact Nat.le_refl 1
    · split <;> exact Nat.le_refl 1
  · exact Nat.zero_le 1

lemma runTickerBody_ok_shape (st : Settings) (w : TickerWorld) (c : CacheState)
    (now : Int) (exchange symbol : String) (t : Ticker)
    (h : (runTickerBody st w c now exchange symbol).result = .ok t) :
    runTickerBody st w c now exchange symbol =
      { result := .ok t,
        cache := (key_builder exchange symbol, encodeTicker t, now + 10) :: c,
        closes := (get_ticker_body st w exchange symbol).closes,
        primaryCalls := (get_ticker_body st w exchange symbol).primaryCalls,
        fallbackCalls := (get_ticker_body st w exchange symbol).fallbackCalls,
        computed := true } := by
  unfold runTickerBody at h ⊢
  cases hb : (get_ticker_body st w exchange symbol).result with
  | ok t' =>
    simp only [hb] at h ⊢
    simp only [Except.ok.injEq] at h
    rw [h]
  | error e => simp [hb] at h

lemma get_ticker_hit (st : Settings) (w : TickerWorld) (c : CacheState)
    (now : Int) (exchange symbol : String) (j : Json) (expiry : Int) (t : Ticker)
    (hl : List.lookup (key_builder exchange symbol) c = some (j, expiry))
    (hw : now < expiry) (hd : decodeTicker j = some t) :
    get_ticker st w c now exchange symbol =
      { result := .ok t, cache := c, closes := 0, primaryCalls := 0,
        fallbackCalls := 0, computed := false } := by
  unfold get_ticker
  rw [hl]
  simp only [hw, if_true, hd]

lemma get_ticker_miss_none (st : Settings) (w : TickerWorld) (c : CacheState)
    (now : Int) (exchange symbol : String)
    (hl : List.lookup (key_builder exchange symbol) c = none) :
    get_ticker st w c now exchange symbol =
      runTickerBody st w c now exchange symbol := by
  unfold get_ticker
  rw [hl]

lemma get_ticker_expired (st : Settings) (w : TickerWorld) (c : CacheState)
    (now : Int) (exchange symbol : String) (j : Json) (expiry : Int)
    (hl : List.lookup (key_builder exchange symbol) c = some (j, expiry))
    (hw : ¬(now < expiry)) :
    get_ticker st w c now exchange symbol =
      runTickerBody st w c now exchange symbol := by
  unfold get_ticker
  rw [hl]
  dsimp only
  rw [if_neg hw]

lemma get_ticker_undecodable (st : Settings) (w : TickerWorld) (c : CacheState)
    (now : Int) (exchange symbol : String) (j : Json) (expiry : Int)
    (hl : List.lookup (key_builder exchange symbol) c = some (j, expiry))
    (hw : now < expiry) (hd : decodeTicker j = none) :
    get_ticker st w c now exchange symbol =
      runTickerBody st w c now exchange symbol := by
  unfold get_ticker
  rw [hl]
  dsimp only
  rw [if_pos hw, hd]

lemma get_ticker_ok_shape (st : Settings) (w : TickerWorld) (c : CacheState)
    (now : Int) (exchange symbol : String) (t : Ticker)
    (h : (get_ticker st w c now exchange symbol).result = .ok t) :
    ((get_ticker st w c now exchange symbol).computed = true ∧
     (get_ticker st w c now exchange symbol).cache =
       (key_builder exchange symbol, encodeTicker t, now + 10) :: c ∧
     (get_ticker st w c now exchange symbol).primaryCalls ≤ 1) ∨
    ((get_ticker st w c now exchange symbol).computed = false ∧
     (get_ticker st w c now exchange symbol).cache = c ∧
     (get_ticker st w c now exchange symbol).primaryCalls = 0 ∧
     ∃ j expiry, List.lookup (key_builder exchange symbol) c = some (j, expiry) ∧
       now < expiry ∧ decodeTicker j = some t) := by
  cases hl : List.lookup (key_builder exchange symbol) c with
  | none =>
    rw [get_ticker_miss_none st w c now exchange symbol hl] at h ⊢
    left
    rw [runTickerBody_ok_shape st w c now exchange symbol t h]
    exact ⟨rfl, rfl, get_ticker_body_primary_le_one st w exchange symbol⟩
  | some je =>
    obtain ⟨j, expiry⟩ := je
    by_cases hw : now < expiry
    · cases hd : decodeTicker j with
      | some t' =>
        rw [get_ticker_hit st w c now exchange symbol j expiry t' hl hw hd] at h ⊢
        simp only [Except.ok.injEq] at h
        right
        exact ⟨rfl, rfl, rfl, j, expiry, rfl, hw, by rw [hd, h]⟩
      | none =>
        rw [get_ticker_undecodable st w c now exchange symbol j expiry hl hw hd]
          at h ⊢
        left
        rw [runTickerBody_ok_shape st w c now exchange symbol t h]
        exact ⟨rfl, rfl, get_ticker_body_primary_le_one st w exchange symbol⟩
    · rw [get_ticker_expired st w c now exchange symbol j expiry hl hw] at h ⊢
      left
      rw [runTickerBody_ok_shape st w c now exchange symbol t h]
      exact ⟨rfl, rfl, get_ticker_body_primary_le_one st w exchange symbol⟩

/-- C1: when a first ticker fetch succeeds and a second fetch of the same
(provider, symbol) is issued while the cache entry for their shared
fingerprint is still within its TTL, the second fetch is answered from the
cache with the same Ticker, does not run the compute function, and the two
fetches together invoke the primary upstream provider at most once. -/
theorem c1_cache_dedup :
    ∀ (st : Settings) (w₁ w₂ : TickerWorld) (c : CacheState) (now₁ now₂ : Int)
      (exchange symbol : String) (t : Ticker) (j : Json) (expiry : Int),
      (get_ticker st w₁ c now₁ exchange symbol).result = .ok t →
      List.lookup (key_builder exchange symbol)
        (get_ticker st w₁ c now₁ exchange symbol).cache = some (j, expiry) →
      now₂ < expiry →
      (get_ticker st w₂ (get_ticker st w₁ c now₁ exchange symbol).cache now₂
          exchange symbol).result = .ok t ∧
      (get_ticker st w₂ (get_ticker st w₁ c now₁ exchange symbol).cache now₂
          exchange symbol).computed = false ∧
      (get_ticker st w₂ (get_ticker st w₁ c now₁ exchange symbol).cache now₂
          exchange symbol).primaryCalls = 0 ∧
      (get_ticker st w₁ c now₁ exchange symbol).primaryCalls +
        (get_ticker st w₂ (get_ticker st w₁ c now₁ exchange symbol).cache now₂
          exchange symbol).primaryCalls ≤ 1 := by
  intro st w₁ w₂ c now₁ now₂ exchange symbol t j expiry h1 hl hw
  rcases get_ticker_ok_shape st w₁ c now₁ exchange symbol t h1 with
    ⟨_, hcache, hprim⟩ | ⟨_, hcache, hprim, j', e', hl', hw', hd'⟩
  · rw [hcache] at hl
    have hself : List.lookup (key_builder exchange symbol)
        ((key_builder exchange symbol, encodeTicker t, now₁ + 10) :: c) =
        some (encodeTicker t, now₁ + 10) := by
      simp [List.lookup]
    rw [hself] at hl
    simp only [Option.some.injEq, Prod.mk.injEq] at hl
    obtain ⟨hj, he⟩ := hl
    rw [hcache]
    rw [get_ticker_hit st w₂
      ((key_builder exchange symbol, encodeTicker t, now₁ + 10) :: c) now₂
      exchange symbol (encodeTicker t) (now₁ + 10) t hself (he ▸ hw)
      (decodeTicker_encodeTicker t)]
    exact ⟨rfl, rfl, rfl, by simpa using hprim⟩
  · rw [hcache] at hl
    rw [hl'] at hl
    simp only [Option.some.injEq, Prod.mk.injEq] at hl
    obtain ⟨hj, he⟩ := hl
    rw [hcache]
    rw [get_ticker_hit st w₂ c now₂ exchange symbol j' e' t hl'
      (by rw [he]; exact hw) hd']
    rw [hprim]
    exact ⟨rfl, rfl, rfl, by simp⟩


/-- C1 witness: a fetch at time 100 stores the entry (expiry 110); a second
fetch at time 105 is served from the cache with zero primary calls. -/
theorem c1_cache_dedup_witness :
    (get_ticker ⟨none, none⟩ btcWorld
        (get_ticker ⟨none, none⟩ btcWorld [] 100 "binance" "BTC/USDT").cache
        105 "binance" "BTC/USDT").result = .ok btcTicker ∧
    (get_ticker ⟨none, none⟩ btcWorld
        (get_ticker ⟨none, none⟩ btcWorld [] 100 "binance" "BTC/USDT").cache
        105 "binance" "BTC/USDT").computed = false ∧
    (get_ticker ⟨none, none⟩ btcWorld
        (get_ticker ⟨none, none⟩ btcWorld [] 100 "binance" "BTC/USDT").cache
        105 "binance" "BTC/USDT").primaryCalls = 0 ∧
    (get_ticker ⟨none, none⟩ btcWorld [] 100 "binance" "BTC/USDT").primaryCalls +
      (get_ticker ⟨none, none⟩ btcWorld
        (get_ticker ⟨none, none⟩ btcWorld [] 100 "binance" "BTC/USDT").cache
        105 "binance" "BTC/USDT").primaryCalls ≤ 1 :=
  c1_cache_dedup ⟨none, none⟩ btcWorld btcWorld [] 100 105 "binance" "BTC/USDT"
    btcTicker (encodeTicker btcTicker) (100 + 10) rfl rfl (by decide)

/-- C9: a Ticker obtained from the upstream (a computing fetch) and then
re-fetched within the TTL comes back from the cache field-for-field
identical — symbol, last, bid, ask, high, low, volume and timestamp all
survive the serializer round trip. -/
theorem c9_cache_roundtrip :
    ∀ (st : Settings) (w₁ w₂ : TickerWorld) (c : CacheState) (now₁ now₂ : Int)
      (exchange symbol : String) (t : Ticker),
      (get_ticker st w₁ c now₁ exchange symbol).result = .ok t →
      (get_ticker st w₁ c now₁ exchange symbol).computed = true →
      now₂ < now₁ + 10 →
      ∃ t₂,
        (get_ticker st w₂ (get_ticker st w₁ c now₁ exchange symbol).cache now₂
            exchange symbol).result = .ok t₂ ∧
        (get_ticker st w₂ (get_ticker st w₁ c now₁ exchange symbol).cache now₂
            exchange symbol).computed = false ∧
        t₂.symbol = t.symbol ∧ t₂.last = t.last ∧ t₂.bid = t.bid ∧
        t₂.ask = t.ask ∧ t₂.high = t.high ∧ t₂.low = t.low ∧
        t₂.volume = t.volume ∧ t₂.timestamp = t.timestamp := by
  intro st w₁ w₂ c now₁ now₂ exchange symbol t h1 hcomp hw
  rcases get_ticker_ok_shape st w₁ c now₁ exchange symbol t h1 with
    ⟨_, hcache, _⟩ | ⟨hcomp', _, _, _⟩
  · have hself : List.lookup (key_builder exchange symbol)
        ((key_builder exchange symbol, encodeTicker t, now₁ + 10) :: c) =
        some (encodeTicker t, now₁ + 10) := by
      simp [List.lookup]
    refine ⟨t, ?_, ?_, rfl, rfl, rfl, rfl, rfl, rfl, rfl, rfl⟩ <;>
      rw [hcache, get_ticker_hit st w₂
        ((key_builder exchange symbol, encodeTicker t, now₁ + 10) :: c) now₂
        exchange symbol (encodeTicker t) (now₁ + 10) t hself hw
        (decodeTicker_encodeTicker t)]
  · rw [hcomp'] at hcomp
    exact absurd hcomp (by simp)

/-- C9 witness: the round trip at the concrete world of the C1 witness. -/
theorem c9_cache_roundtrip_witness :
    ∃ t₂,
      (get_ticker ⟨none, none⟩ btcWorld
          (get_ticker ⟨none, none⟩ btcWorld [] 100 "binance" "BTC/USDT").cache
          105 "binance" "BTC/USDT").result = .ok t₂ ∧
      (get_ticker ⟨none, none⟩ btcWorld
          (get_ticker ⟨none, none⟩ btcWorld [] 100 "binance" "BTC/USDT").cache
          105 "binance" "BTC/USDT").computed = false ∧
      t₂.symbol = btcTicker.symbol ∧ t₂.last = btcTicker.last ∧
      t₂.bid = btcTicker.bid ∧ t₂.ask = btcTicker.ask ∧
      t₂.high = btcTicker.high ∧ t₂.low = btcTicker.low ∧
      t₂.volume = btcTicker.volume ∧ t₂.timestamp = btcTicker.timestamp :=
  c9_cache_roundtrip ⟨none, none⟩ btcWorld btcWorld [] 100 105
    "binance" "BTC/USDT" btcTicker rfl rfl (by decide)
